import Mathlib

/-!
Verification of the Cumberland River flow calculator (`app.py`).

The development shallowly embeds the algorithmic core of the program:
the static river path table, the river-mile-to-coordinate geocoder
`get_coordinates_from_river_path` (with its coordinate validation
fallback `validate_river_coordinates` and `find_closest_dam_by_mile`),
and the flow propagation engine `calculate_flow_with_timing`.

Python floats are modelled as exact rationals (all table entries are
decimal literals); the transcendental attenuation factor `math.exp` is
modelled with `Real.exp`, so flow values live in `ℝ`.  A Python
function that could raise an exception is modelled with an `Option`
result: `none` means an exception would have escaped, and unguarded
divisions and list indexing are modelled by the checked operations
`qdiv?` and `getElem?`.  External effects are passed as parameters:
the USGS gauge response is an `Option GaugeData` argument (`none` for
any failure) and the wall clock `datetime.now()` is a parameter `now`.
-/

namespace Cumberland

/-- One entry `(river_mile, lat, lon)` of the river path table built by
`_generate_river_path`. -/
structure RiverPoint where
  mile : ℚ
  lat : ℚ
  lon : ℚ
deriving DecidableEq

/-- One entry of the `dam_sites` table (merged into `self.dams` by
`_initialize_dam_data`; the numeric fields are copied unchanged). -/
structure Dam where
  name : String
  usgs_site : String
  capacity_cfs : ℚ
  river_mile : ℚ
  lat : ℚ
  lon : ℚ
  elevation_ft : ℚ
deriving DecidableEq

/-- Python's `min(xs, key=f)` on the nonempty list `x :: xs`: the first
element with minimal key. -/
def pyMinBy {α : Type} (f : α → ℚ) (x : α) (xs : List α) : α :=
  xs.foldl (fun b q => if f q < f b then q else b) x

/-- Python's `max(xs, key=f)` on the nonempty list `x :: xs`: the first
element with maximal key. -/
def pyMaxBy {α : Type} (f : α → ℚ) (x : α) (xs : List α) : α :=
  xs.foldl (fun b q => if f b < f q then q else b) x

/-- Checked division: `none` models a Python `ZeroDivisionError`. -/
def qdiv? (a b : ℚ) : Option ℚ :=
  if b = 0 then none else some (a / b)

/-- Linear interpolation of both coordinates, as written in the source:
`lat = lo.lat + ratio * (hi.lat - lo.lat)` and likewise for `lon`. -/
def lerp2 (lo hi : RiverPoint) (r : ℚ) : ℚ × ℚ :=
  (lo.lat + r * (hi.lat - lo.lat), lo.lon + r * (hi.lon - lo.lon))

/-- The `for i, point in enumerate(...)` loop computing `closest_idx`:
the last index whose mile is `≤ target_mile`, starting from `0`. -/
def closestIdxAux (target : ℚ) : List RiverPoint → ℕ → ℕ → ℕ
  | [], _, acc => acc
  | q :: qs, i, acc => closestIdxAux target qs (i + 1) (if q.mile ≤ target then i else acc)

def closestIdx (l : List RiverPoint) (target : ℚ) : ℕ :=
  closestIdxAux target l 0 0

/-- Insertion step for the ascending sort of `intermediate_points`. -/
def insertAsc (q : RiverPoint) : List RiverPoint → List RiverPoint
  | [] => [q]
  | r :: rs => if q.mile < r.mile then q :: r :: rs else r :: insertAsc q rs

/-- `intermediate_points.sort(key=lambda x: x[0])` (ascending by mile). -/
def sortAsc : List RiverPoint → List RiverPoint
  | [] => []
  | q :: qs => insertAsc q (sortAsc qs)

/-- Insertion step for `sorted(river_points, key=..., reverse=True)`. -/
def insertDesc (q : RiverPoint) : List RiverPoint → List RiverPoint
  | [] => [q]
  | r :: rs => if r.mile ≤ q.mile then q :: r :: rs else r :: insertDesc q rs

/-- Descending sort by river mile applied to the river point table. -/
def sortDescList : List RiverPoint → List RiverPoint
  | [] => []
  | q :: qs => insertDesc q (sortDescList qs)

/-- The `len(intermediate_points) >= 3` spline-like branch of
`get_coordinates_from_river_path`. -/
def spline_interp (inter : List RiverPoint) (target : ℚ) : Option (ℚ × ℚ) :=
  let ci := closestIdx inter target
  if ci < inter.length - 1 then do
    let p1 ← inter[ci]?
    let p2 ← inter[ci + 1]?
    let r := if p2.mile ≠ p1.mile then (target - p1.mile) / (p2.mile - p1.mile) else 0.5
    some (lerp2 p1 p2 r)
  else do
    let p1 ← inter[ci]?
    some (p1.lat, p1.lon)

/-- The interpolation core of `get_coordinates_from_river_path` between
the located `lower_point` and `upper_point` (source lines 481-513). -/
def interp_between (path : List RiverPoint) (target : ℚ) (lower upper : RiverPoint) :
    Option (ℚ × ℚ) :=
  let mile_diff := upper.mile - lower.mile
  if mile_diff ≤ 5 then do
    let r ← qdiv? (target - lower.mile) mile_diff
    some (lerp2 lower upper r)
  else
    let inter := sortAsc (path.filter fun q =>
      decide (lower.mile ≤ q.mile ∧ q.mile ≤ upper.mile))
    if 3 ≤ inter.length then spline_interp inter target
    else do
      let r ← qdiv? (target - lower.mile) mile_diff
      some (lerp2 lower upper r)

/-- The `dam_sites` table (numeric fields; `self.dams` copies them). -/
def wolfCreekDam : Dam :=
  { name := "Wolf Creek Dam", usgs_site := "03160000", capacity_cfs := 70000,
    river_mile := 460.9, lat := 36.8939, lon := -84.9269, elevation_ft := 760 }

def daleHollowDam : Dam :=
  { name := "Dale Hollow Dam", usgs_site := "03141000", capacity_cfs := 54000,
    river_mile := 387.2, lat := 36.5444, lon := -85.4597, elevation_ft := 651 }

def centerHillDam : Dam :=
  { name := "Center Hill Dam", usgs_site := "03429500", capacity_cfs := 89000,
    river_mile := 325.7, lat := 36.0847, lon := -85.7814, elevation_ft := 685 }

def oldHickoryDam : Dam :=
  { name := "Old Hickory Dam", usgs_site := "03431500", capacity_cfs := 120000,
    river_mile := 216.2, lat := 36.29667, lon := -86.65556, elevation_ft := 445 }

def percyPriestDam : Dam :=
  { name := "J Percy Priest Dam", usgs_site := "03430500", capacity_cfs := 65000,
    river_mile := 189.5, lat := 36.0625, lon := -86.6361, elevation_ft := 490 }

def cheathamDam : Dam :=
  { name := "Cheatham Dam", usgs_site := "03431700", capacity_cfs := 130000,
    river_mile := 148.7, lat := 36.320053, lon := -87.222506, elevation_ft := 392 }

def barkleyDam : Dam :=
  { name := "Barkley Dam", usgs_site := "03438220", capacity_cfs := 200000,
    river_mile := 30.6, lat := 37.0208, lon := -88.2228, elevation_ft := 359 }

/-- `self.dams` in dictionary insertion order. -/
def dams : List Dam :=
  [wolfCreekDam, daleHollowDam, centerHillDam, oldHickoryDam,
   percyPriestDam, cheathamDam, barkleyDam]

/-- `find_closest_dam_by_mile`: the first dam minimizing
`abs(dam_river_mile - river_mile)`; `none` models the crash on an empty
dam table (`closest_dam` stays `None`). -/
def find_closest_dam_by_mile (river_mile : ℚ) : Option Dam :=
  match dams with
  | [] => none
  | d :: ds => some (pyMinBy (fun x => |x.river_mile - river_mile|) d ds)

/-- `validate_river_coordinates`: keep the point if it is inside the
fixed Cumberland bounding box, otherwise fall back to the coordinates
of the dam closest by river mile. -/
def validate_river_coordinates (lat lon river_mile : ℚ) : Option (ℚ × ℚ) :=
  if 36 ≤ lat ∧ lat ≤ 37.5 ∧ -88.5 ≤ lon ∧ lon ≤ -84.5 then
    some (lat, lon)
  else
    (find_closest_dam_by_mile river_mile).map (fun d => (d.lat, d.lon))

/-- `get_coordinates_from_river_path` (source lines 450-519),
parametrized by the instance attribute `self.river_path`. -/
def get_coordinates_from_river_path (path : List RiverPoint) (target_mile : ℚ) :
    Option (ℚ × ℚ) :=
  match path with
  | [] => some (36.1, -86.8)
  | p :: ps =>
    let highest := pyMaxBy (fun q => q.mile) p ps
    let lowest := pyMinBy (fun q => q.mile) p ps
    if highest.mile ≤ target_mile then some (highest.lat, highest.lon)
    else if target_mile ≤ lowest.mile then some (lowest.lat, lowest.lon)
    else
      match (p :: ps).filter (fun q => decide (target_mile ≤ q.mile)),
            (p :: ps).filter (fun q => decide (q.mile ≤ target_mile)) with
      | [], _ => some (36.1, -86.8)
      | _ :: _, [] => some (36.1, -86.8)
      | u :: us, l :: ls =>
        let upper := pyMinBy (fun q => q.mile) u us
        let lower := pyMaxBy (fun q => q.mile) l ls
        if upper.mile = lower.mile then some (upper.lat, upper.lon)
        else
          (interp_between (p :: ps) target_mile lower upper).bind
            (fun c => validate_river_coordinates c.1 c.2 target_mile)

/-- The literal river point table of `_generate_river_path`. -/
def river_points : List RiverPoint :=
  [(⟨460.9, 36.8939, -84.9269⟩ : RiverPoint),
   (⟨455.0, 36.8850, -84.9100⟩ : RiverPoint),
   (⟨450.0, 36.8750, -84.8950⟩ : RiverPoint),
   (⟨445.0, 36.8650, -84.8800⟩ : RiverPoint),
   (⟨440.0, 36.8550, -84.8700⟩ : RiverPoint),
   (⟨435.0, 36.8400, -84.8600⟩ : RiverPoint),
   (⟨430.0, 36.8250, -84.8500⟩ : RiverPoint),
   (⟨425.0, 36.8100, -84.8450⟩ : RiverPoint),
   (⟨420.0, 36.7950, -84.8400⟩ : RiverPoint),
   (⟨415.0, 36.7800, -84.8350⟩ : RiverPoint),
   (⟨410.0, 36.7650, -84.8300⟩ : RiverPoint),
   (⟨405.0, 36.7500, -84.8250⟩ : RiverPoint),
   (⟨400.0, 36.7350, -84.8200⟩ : RiverPoint),
   (⟨395.0, 36.7200, -84.8150⟩ : RiverPoint),
   (⟨390.0, 36.6900, -84.8500⟩ : RiverPoint),
   (⟨387.2, 36.5444, -85.4597⟩ : RiverPoint),
   (⟨385.0, 36.5400, -85.4700⟩ : RiverPoint),
   (⟨380.0, 36.5200, -85.5000⟩ : RiverPoint),
   (⟨375.0, 36.5000, -85.5300⟩ : RiverPoint),
   (⟨370.0, 36.4800, -85.5600⟩ : RiverPoint),
   (⟨365.0, 36.4600, -85.5900⟩ : RiverPoint),
   (⟨360.0, 36.4400, -85.6200⟩ : RiverPoint),
   (⟨355.0, 36.4200, -85.6500⟩ : RiverPoint),
   (⟨350.0, 36.4000, -85.6800⟩ : RiverPoint),
   (⟨345.0, 36.3800, -85.7100⟩ : RiverPoint),
   (⟨340.0, 36.3600, -85.7400⟩ : RiverPoint),
   (⟨335.0, 36.3400, -85.7600⟩ : RiverPoint),
   (⟨330.0, 36.3200, -85.7750⟩ : RiverPoint),
   (⟨325.7, 36.0847, -85.7814⟩ : RiverPoint),
   (⟨320.0, 36.1200, -85.8000⟩ : RiverPoint),
   (⟨315.0, 36.1400, -85.8200⟩ : RiverPoint),
   (⟨310.0, 36.1600, -85.8400⟩ : RiverPoint),
   (⟨305.0, 36.1800, -85.8600⟩ : RiverPoint),
   (⟨300.0, 36.2000, -85.8800⟩ : RiverPoint),
   (⟨295.0, 36.2100, -85.9000⟩ : RiverPoint),
   (⟨290.0, 36.2200, -85.9200⟩ : RiverPoint),
   (⟨285.0, 36.2300, -85.9400⟩ : RiverPoint),
   (⟨280.0, 36.2400, -85.9600⟩ : RiverPoint),
   (⟨275.0, 36.2500, -85.9800⟩ : RiverPoint),
   (⟨270.0, 36.2600, -86.0000⟩ : RiverPoint),
   (⟨265.0, 36.2650, -86.0200⟩ : RiverPoint),
   (⟨260.0, 36.2700, -86.0400⟩ : RiverPoint),
   (⟨255.0, 36.2750, -86.0600⟩ : RiverPoint),
   (⟨250.0, 36.2800, -86.0800⟩ : RiverPoint),
   (⟨245.0, 36.2850, -86.1000⟩ : RiverPoint),
   (⟨240.0, 36.2900, -86.1200⟩ : RiverPoint),
   (⟨235.0, 36.2920, -86.1400⟩ : RiverPoint),
   (⟨230.0, 36.2940, -86.1600⟩ : RiverPoint),
   (⟨225.0, 36.2950, -86.1800⟩ : RiverPoint),
   (⟨220.0, 36.2960, -86.2000⟩ : RiverPoint),
   (⟨216.2, 36.29667, -86.65556⟩ : RiverPoint),
   (⟨210.0, 36.2800, -86.5000⟩ : RiverPoint),
   (⟨205.0, 36.2600, -86.5200⟩ : RiverPoint),
   (⟨200.0, 36.2400, -86.5400⟩ : RiverPoint),
   (⟨195.0, 36.2200, -86.5600⟩ : RiverPoint),
   (⟨189.5, 36.0625, -86.6361⟩ : RiverPoint),
   (⟨185.0, 36.1000, -86.6500⟩ : RiverPoint),
   (⟨180.0, 36.1200, -86.6700⟩ : RiverPoint),
   (⟨175.0, 36.1400, -86.6900⟩ : RiverPoint),
   (⟨170.0, 36.1600, -86.7100⟩ : RiverPoint),
   (⟨165.0, 36.1800, -86.7300⟩ : RiverPoint),
   (⟨160.0, 36.2000, -86.7500⟩ : RiverPoint),
   (⟨155.0, 36.2200, -86.7700⟩ : RiverPoint),
   (⟨150.0, 36.2400, -86.7900⟩ : RiverPoint),
   (⟨148.7, 36.320053, -87.222506⟩ : RiverPoint),
   (⟨145.0, 36.3100, -87.1500⟩ : RiverPoint),
   (⟨140.0, 36.3200, -87.1700⟩ : RiverPoint),
   (⟨135.0, 36.3300, -87.1900⟩ : RiverPoint),
   (⟨130.0, 36.3400, -87.2100⟩ : RiverPoint),
   (⟨125.0, 36.3500, -87.2300⟩ : RiverPoint),
   (⟨120.0, 36.3600, -87.2500⟩ : RiverPoint),
   (⟨115.0, 36.3700, -87.2700⟩ : RiverPoint),
   (⟨110.0, 36.3800, -87.2900⟩ : RiverPoint),
   (⟨105.0, 36.3900, -87.3100⟩ : RiverPoint),
   (⟨100.0, 36.4000, -87.3300⟩ : RiverPoint),
   (⟨95.0, 36.4100, -87.3500⟩ : RiverPoint),
   (⟨90.0, 36.4200, -87.3700⟩ : RiverPoint),
   (⟨85.0, 36.4300, -87.3900⟩ : RiverPoint),
   (⟨80.0, 36.4400, -87.4100⟩ : RiverPoint),
   (⟨75.0, 36.4500, -87.4300⟩ : RiverPoint),
   (⟨70.0, 36.4600, -87.4500⟩ : RiverPoint),
   (⟨65.0, 36.4700, -87.4700⟩ : RiverPoint),
   (⟨60.0, 36.4800, -87.4900⟩ : RiverPoint),
   (⟨55.0, 36.4900, -87.5100⟩ : RiverPoint),
   (⟨50.0, 36.5000, -87.5300⟩ : RiverPoint),
   (⟨45.0, 36.5200, -87.5500⟩ : RiverPoint),
   (⟨40.0, 36.5400, -87.5700⟩ : RiverPoint),
   (⟨35.0, 36.5600, -87.5900⟩ : RiverPoint),
   (⟨30.6, 37.0208, -88.2228⟩ : RiverPoint),
   (⟨25.0, 36.8800, -88.2400⟩ : RiverPoint),
   (⟨20.0, 36.8900, -88.2600⟩ : RiverPoint),
   (⟨15.0, 36.9000, -88.2800⟩ : RiverPoint),
   (⟨10.0, 36.9100, -88.3000⟩ : RiverPoint),
   (⟨5.0, 36.9150, -88.3200⟩ : RiverPoint),
   (⟨0.0, 36.9200, -88.4000⟩ : RiverPoint)]

/-- `self.river_path`: the table sorted by river mile, descending. -/
def river_path : List RiverPoint := sortDescList river_points

/-- `calculate_river_distance_miles`: river distance is the absolute
difference of the river mile coordinates. -/
def calculate_river_distance_miles (start_mile end_mile : ℚ) : ℚ :=
  |start_mile - end_mile|

/-- `calculate_travel_time_hours` with the default
`avg_velocity_mph = 3.0` used by the engine. -/
def calculate_travel_time_hours (river_miles : ℚ) : ℚ :=
  river_miles / 3

/-- `calculate_distance_miles`: the Haversine straight-line distance,
kept "for reference only" (it drives map zoom, never flow numbers). -/
noncomputable def calculate_distance_miles (lat1 lon1 lat2 lon2 : ℝ) : ℝ :=
  let lat1r := lat1 * (Real.pi / 180)
  let lon1r := lon1 * (Real.pi / 180)
  let lat2r := lat2 * (Real.pi / 180)
  let lon2r := lon2 * (Real.pi / 180)
  let a := Real.sin ((lat2r - lat1r) / 2) ^ 2 +
    Real.cos lat1r * Real.cos lat2r * Real.sin ((lon2r - lon1r) / 2) ^ 2
  3959 * (2 * Real.arcsin (Real.sqrt a))

/-- A successful USGS gauge reading (`get_usgs_flow_data` result);
timestamps are modelled as abstract rational time values. -/
structure GaugeData where
  flow_cfs : ℚ
  timestamp : ℚ

/-- The dictionary returned by `calculate_flow_with_timing`. -/
structure FlowResult where
  current_flow_at_dam : ℚ
  flow_at_user_location : ℝ
  travel_miles : ℚ
  travel_time_hours : ℚ
  arrival_time : ℚ
  data_timestamp : ℚ
  user_coordinates : ℚ × ℚ
  dam_coordinates : ℚ × ℚ
  flow_data_available : Bool

/-- `calculate_flow_with_timing` (source lines 656-702).  The gauge
response and the current wall-clock time are parameters; `flow_data =
none` is any gauge failure. -/
noncomputable def calculate_flow_with_timing (path : List RiverPoint) (dam : Dam)
    (user_mile : ℚ) (flow_data : Option GaugeData) (now : ℚ) : Option FlowResult :=
  (get_coordinates_from_river_path path user_mile).bind (fun user_coords =>
    let current_flow : ℚ :=
      match flow_data with
      | some fd => fd.flow_cfs
      | none => dam.capacity_cfs * 0.4
    let data_timestamp : ℚ :=
      match flow_data with
      | some fd => fd.timestamp
      | none => now
    if user_mile < dam.river_mile then
      let travel_miles := calculate_river_distance_miles dam.river_mile user_mile
      let travel_time_hours := calculate_travel_time_hours travel_miles
      some { current_flow_at_dam := current_flow
             flow_at_user_location :=
               (current_flow : ℝ) * Real.exp (-(travel_miles : ℝ) / 100)
             travel_miles := travel_miles
             travel_time_hours := travel_time_hours
             arrival_time := now + travel_time_hours
             data_timestamp := data_timestamp
             user_coordinates := user_coords
             dam_coordinates := (dam.lat, dam.lon)
             flow_data_available := flow_data.isSome }
    else
      some { current_flow_at_dam := current_flow
             flow_at_user_location := (current_flow : ℝ) * 0.5
             travel_miles := 0
             travel_time_hours := 0
             arrival_time := now
             data_timestamp := data_timestamp
             user_coordinates := user_coords
             dam_coordinates := (dam.lat, dam.lon)
             flow_data_available := flow_data.isSome })

def rp0 : RiverPoint := ⟨460.9, 36.8939, -84.9269⟩

def rpTail : List RiverPoint := river_points.tail

/-- Result of an upstream query at mile 300 against Old Hickory Dam with
no live gauge data, at wall-clock time 0. -/
noncomputable def upRes300 : FlowResult :=
  { current_flow_at_dam := 48000
    flow_at_user_location := (48000 : ℝ) * 0.5
    travel_miles := 0
    travel_time_hours := 0
    arrival_time := 0
    data_timestamp := 0
    user_coordinates := (36.2, -85.88)
    dam_coordinates := (36.29667, -86.65556)
    flow_data_available := false }

/-- Result of a downstream query at mile 166.2 against Old Hickory Dam
with a live reading of 100000 cfs stamped 7, at wall-clock time 0. -/
noncomputable def downRes166 : FlowResult :=
  { current_flow_at_dam := 100000
    flow_at_user_location := (100000 : ℝ) * Real.exp (-(50 : ℝ) / 100)
    travel_miles := 50
    travel_time_hours := 50 / 3
    arrival_time := 50 / 3
    data_timestamp := 7
    user_coordinates := (36.1752, -86.7252)
    dam_coordinates := (36.29667, -86.65556)
    flow_data_available := true }

/-- Result of a downstream query at mile 206.2 against Old Hickory Dam
with a live reading of 100000 cfs stamped 7, at wall-clock time 0. -/
noncomputable def downRes206 : FlowResult :=
  { current_flow_at_dam := 100000
    flow_at_user_location := (100000 : ℝ) * Real.exp (-(10 : ℝ) / 100)
    travel_miles := 10
    travel_time_hours := 10 / 3
    arrival_time := 10 / 3
    data_timestamp := 7
    user_coordinates := (36.2648, -86.5152)
    dam_coordinates := (36.29667, -86.65556)
    flow_data_available := true }

/-- Result of a downstream query at mile 196.2 against Old Hickory Dam
with a live reading of 100000 cfs stamped 7, at wall-clock time 0. -/
noncomputable def downRes196 : FlowResult :=
  { current_flow_at_dam := 100000
    flow_at_user_location := (100000 : ℝ) * Real.exp (-(20 : ℝ) / 100)
    travel_miles := 20
    travel_time_hours := 20 / 3
    arrival_time := 20 / 3
    data_timestamp := 7
    user_coordinates := (36.2248, -86.5552)
    dam_coordinates := (36.29667, -86.65556)
    flow_data_available := true }

/-! ### Generic facts about the Python `min`/`max` folds -/

theorem pyMinBy_cons {α : Type} (f : α → ℚ) (x q : α) (qs : List α) :
    pyMinBy f x (q :: qs) = pyMinBy f (if f q < f x then q else x) qs := rfl

theorem pyMaxBy_cons {α : Type} (f : α → ℚ) (x q : α) (qs : List α) :
    pyMaxBy f x (q :: qs) = pyMaxBy f (if f x < f q then q else x) qs := rfl

theorem pyMinBy_mem {α : Type} (f : α → ℚ) (x : α) (xs : List α) :
    pyMinBy f x xs ∈ x :: xs := by
  induction xs generalizing x with
  | nil => simp [pyMinBy]
  | cons q qs ih =>
    rw [pyMinBy_cons]
    by_cases hc : f q < f x
    · rw [if_pos hc]
      rcases List.mem_cons.mp (ih q) with h | h
      · rw [h]; exact List.mem_cons.mpr (Or.inr (List.mem_cons_self q qs))
      · exact List.mem_cons.mpr (Or.inr (List.mem_cons.mpr (Or.inr h)))
    · rw [if_neg hc]
      rcases List.mem_cons.mp (ih x) with h | h
      · rw [h]; exact List.mem_cons_self x _
      · exact List.mem_cons.mpr (Or.inr (List.mem_cons.mpr (Or.inr h)))

theorem pyMaxBy_mem {α : Type} (f : α → ℚ) (x : α) (xs : List α) :
    pyMaxBy f x xs ∈ x :: xs := by
  induction xs generalizing x with
  | nil => simp [pyMaxBy]
  | cons q qs ih =>
    rw [pyMaxBy_cons]
    by_cases hc : f x < f q
    · rw [if_pos hc]
      rcases List.mem_cons.mp (ih q) with h | h
      · rw [h]; exact List.mem_cons.mpr (Or.inr (List.mem_cons_self q qs))
      · exact List.mem_cons.mpr (Or.inr (List.mem_cons.mpr (Or.inr h)))
    · rw [if_neg hc]
      rcases List.mem_cons.mp (ih x) with h | h
      · rw [h]; exact List.mem_cons_self x _
      · exact List.mem_cons.mpr (Or.inr (List.mem_cons.mpr (Or.inr h)))

theorem pyMinBy_le {α : Type} (f : α → ℚ) (x : α) (xs : List α) :
    ∀ y ∈ x :: xs, f (pyMinBy f x xs) ≤ f y := by
  induction xs generalizing x with
  | nil =>
    intro y hy
    rcases List.mem_cons.mp hy with h | h
    · subst h; exact le_rfl
    · simp at h
  | cons q qs ih =>
    intro y hy
    rw [pyMinBy_cons]
    by_cases hc : f q < f x
    · rw [if_pos hc]
      rcases List.mem_cons.mp hy with h | h
      · subst h
        exact le_trans (ih q q (List.mem_cons_self q qs)) (le_of_lt hc)
      · rcases List.mem_cons.mp h with h | h
        · rw [h]; exact ih q q (List.mem_cons_self q qs)
        · exact ih q y (List.mem_cons.mpr (Or.inr h))
    · rw [if_neg hc]
      rcases List.mem_cons.mp hy with h | h
      · rw [h]; exact ih x x (List.mem_cons_self x qs)
      · rcases List.mem_cons.mp h with h | h
        · subst h
          exact le_trans (ih x x (List.mem_cons_self x qs)) (le_of_not_lt hc)
        · exact ih x y (List.mem_cons.mpr (Or.inr h))

theorem le_pyMaxBy {α : Type} (f : α → ℚ) (x : α) (xs : List α) :
    ∀ y ∈ x :: xs, f y ≤ f (pyMaxBy f x xs) := by
  induction xs generalizing x with
  | nil =>
    intro y hy
    rcases List.mem_cons.mp hy with h | h
    · subst h; exact le_rfl
    · simp at h
  | cons q qs ih =>
    intro y hy
    rw [pyMaxBy_cons]
    by_cases hc : f x < f q
    · rw [if_pos hc]
      rcases List.mem_cons.mp hy with h | h
      · subst h
        exact le_trans (le_of_lt hc) (ih q q (List.mem_cons_self q qs))
      · rcases List.mem_cons.mp h with h | h
        · rw [h]; exact ih q q (List.mem_cons_self q qs)
        · exact ih q y (List.mem_cons.mpr (Or.inr h))
    · rw [if_neg hc]
      rcases List.mem_cons.mp hy with h | h
      · rw [h]; exact ih x x (List.mem_cons_self x qs)
      · rcases List.mem_cons.mp h with h | h
        · subst h
          exact le_trans (le_of_not_lt hc) (ih x x (List.mem_cons_self x qs))
        · exact ih x y (List.mem_cons.mpr (Or.inr h))

/-! ### Facts about strictly descending river paths -/

theorem mile_le_of_take {l : List RiverPoint}
    (hp : l.Pairwise (fun a b => b.mile < a.mile)) {i : ℕ} (hi : i < l.length) :
    ∀ q ∈ l.take (i + 1), l[i].mile ≤ q.mile := by
  intro q hq
  obtain ⟨j, hj, hjq⟩ := List.mem_iff_getElem.mp hq
  have hjl : j < l.length := lt_of_lt_of_le hj (by rw [List.length_take]; exact min_le_right _ _)
  rw [List.getElem_take] at hjq
  subst hjq
  have hj2 : j < i + 1 := lt_of_lt_of_le hj (by rw [List.length_take]; exact min_le_left _ _)
  rcases Nat.lt_or_ge j i with h | h
  · exact le_of_lt ((List.pairwise_iff_getElem.mp hp) j i hjl hi h)
  · have hji : j = i := by omega
    subst hji; exact le_rfl

theorem mile_lt_of_take {l : List RiverPoint}
    (hp : l.Pairwise (fun a b => b.mile < a.mile)) {i : ℕ} (hi : i < l.length) :
    ∀ q ∈ l.take i, l[i].mile < q.mile := by
  intro q hq
  obtain ⟨j, hj, hjq⟩ := List.mem_iff_getElem.mp hq
  have hjl : j < l.length := lt_of_lt_of_le hj (by rw [List.length_take]; exact min_le_right _ _)
  rw [List.getElem_take] at hjq
  subst hjq
  have hj2 : j < i := lt_of_lt_of_le hj (by rw [List.length_take]; exact min_le_left _ _)
  exact (List.pairwise_iff_getElem.mp hp) j i hjl hi hj2

theorem mile_le_of_drop {l : List RiverPoint}
    (hp : l.Pairwise (fun a b => b.mile < a.mile)) {i : ℕ} (hi : i < l.length) :
    ∀ q ∈ l.drop i, q.mile ≤ l[i].mile := by
  intro q hq
  obtain ⟨j, hj, hjq⟩ := List.mem_iff_getElem.mp hq
  rw [List.getElem_drop] at hjq
  subst hjq
  have hjl : i + j < l.length := by rw [List.length_drop] at hj; omega
  rcases Nat.eq_zero_or_pos j with h | h
  · subst h; exact le_rfl
  · exact le_of_lt ((List.pairwise_iff_getElem.mp hp) i (i + j) hi hjl (by omega))

theorem mile_lt_of_drop {l : List RiverPoint}
    (hp : l.Pairwise (fun a b => b.mile < a.mile)) {i : ℕ} (hi : i < l.length) :
    ∀ q ∈ l.drop (i + 1), q.mile < l[i].mile := by
  intro q hq
  obtain ⟨j, hj, hjq⟩ := List.mem_iff_getElem.mp hq
  rw [List.getElem_drop] at hjq
  subst hjq
  have hjl : i + 1 + j < l.length := by rw [List.length_drop] at hj; omega
  exact (List.pairwise_iff_getElem.mp hp) i (i + 1 + j) hi hjl (by omega)

theorem mile_unique {l : List RiverPoint}
    (hp : l.Pairwise (fun a b => b.mile < a.mile)) {a b : RiverPoint}
    (ha : a ∈ l) (hb : b ∈ l) (hm : a.mile = b.mile) : a = b := by
  obtain ⟨i, hi, hia⟩ := List.mem_iff_getElem.mp ha
  obtain ⟨j, hj, hjb⟩ := List.mem_iff_getElem.mp hb
  rcases Nat.lt_trichotomy i j with h | h | h
  · have := (List.pairwise_iff_getElem.mp hp) i j hi hj h
    rw [hia, hjb] at this
    exact absurd hm (ne_of_gt this)
  · subst h; rw [← hia, ← hjb]
  · have := (List.pairwise_iff_getElem.mp hp) j i hj hi h
    rw [hia, hjb] at this
    exact absurd hm (ne_of_lt this)

/-! ### The descending sort leaves the (already sorted) table unchanged -/

theorem sortDescList_eq_of_chain :
    ∀ l : List RiverPoint, List.Chain' (fun a b => b.mile ≤ a.mile) l → sortDescList l = l := by
  intro l hl
  induction l with
  | nil => rfl
  | cons q qs ih =>
    rw [show sortDescList (q :: qs) = insertDesc q (sortDescList qs) from rfl]
    rw [ih (List.Chain'.tail hl)]
    cases qs with
    | nil => rfl
    | cons r rs =>
      have hqr : r.mile ≤ q.mile := (List.chain'_cons.mp hl).1
      rw [show insertDesc q (r :: rs) = if r.mile ≤ q.mile then q :: r :: rs
        else r :: insertDesc q rs from rfl, if_pos hqr]

/-! ### Bounds for the `closest_idx` loop -/

theorem closestIdxAux_cases (t : ℚ) :
    ∀ (l : List RiverPoint) (i acc : ℕ),
      closestIdxAux t l i acc = acc ∨
        (i ≤ closestIdxAux t l i acc ∧ closestIdxAux t l i acc < i + l.length) := by
  intro l
  induction l with
  | nil => intro i acc; left; rfl
  | cons q qs ih =>
    intro i acc
    rw [show closestIdxAux t (q :: qs) i acc
      = closestIdxAux t qs (i + 1) (if q.mile ≤ t then i else acc) from rfl]
    rcases ih (i + 1) (if q.mile ≤ t then i else acc) with h | h
    · rw [h]
      by_cases hc : q.mile ≤ t
      · right; rw [if_pos hc]
        refine ⟨le_rfl, ?_⟩
        simp only [List.length_cons]
        omega
      · left; rw [if_neg hc]
    · right
      obtain ⟨h1, h2⟩ := h
      simp only [List.length_cons] at *
      constructor
      · omega
      · omega

theorem closestIdx_lt (l : List RiverPoint) (t : ℚ) (h : l ≠ []) :
    closestIdx l t < l.length := by
  have hlen : 0 < l.length := List.length_pos.mpr h
  rcases closestIdxAux_cases t l 0 0 with h0 | ⟨_, h2⟩
  · rw [closestIdx, h0]; exact hlen
  · rw [closestIdx]; omega

/-! ### Convexity of linear interpolation -/

theorem lerp_bound {a b lo hi r : ℚ} (h1 : a ≤ lo) (h2 : lo ≤ b) (h3 : a ≤ hi)
    (h4 : hi ≤ b) (hr0 : 0 ≤ r) (hr1 : r ≤ 1) :
    a ≤ lo + r * (hi - lo) ∧ lo + r * (hi - lo) ≤ b := by
  constructor <;> nlinarith

/-! ### Concrete facts about the program's river path -/

theorem river_points_chain :
    List.Chain' (fun a b : RiverPoint => b.mile < a.mile) river_points := by
  simp only [river_points, List.chain'_cons, List.chain'_singleton, and_true]
  norm_num

theorem river_points_pairwise :
    List.Pairwise (fun a b : RiverPoint => b.mile < a.mile) river_points := by
  haveI : IsTrans RiverPoint (fun a b => b.mile < a.mile) :=
    ⟨fun _ _ _ hab hbc => lt_trans hbc hab⟩
  exact List.chain'_iff_pairwise.mp river_points_chain

theorem river_path_eq : river_path = river_points :=
  sortDescList_eq_of_chain _ (river_points_chain.imp fun _ _ h => le_of_lt h)

theorem river_path_pairwise :
    List.Pairwise (fun a b : RiverPoint => b.mile < a.mile) river_path := by
  rw [river_path_eq]; exact river_points_pairwise

theorem river_points_box :
    ∀ q ∈ river_points, 36 ≤ q.lat ∧ q.lat ≤ 37.5 ∧ -88.5 ≤ q.lon ∧ q.lon ≤ -84.5 := by
  simp only [river_points, List.forall_mem_cons, List.forall_mem_nil]
  norm_num

/-! ### Filters of a split list -/

theorem filter_eq_take_of {l : List RiverPoint} {P : RiverPoint → Bool} {K : ℕ}
    (h1 : ∀ q ∈ l.take K, P q = true) (h2 : ∀ q ∈ l.drop K, P q = false) :
    l.filter P = l.take K := by
  conv_lhs => rw [← List.take_append_drop K l]
  rw [List.filter_append, List.filter_eq_self.mpr h1,
    List.filter_eq_nil_iff.mpr (fun a ha => by rw [h2 a ha]; simp), List.append_nil]

theorem filter_eq_drop_of {l : List RiverPoint} {P : RiverPoint → Bool} {M : ℕ}
    (h1 : ∀ q ∈ l.take M, P q = false) (h2 : ∀ q ∈ l.drop M, P q = true) :
    l.filter P = l.drop M := by
  conv_lhs => rw [← List.take_append_drop M l]
  rw [List.filter_append, List.filter_eq_self.mpr h2,
    List.filter_eq_nil_iff.mpr (fun a ha => by rw [h1 a ha]; simp), List.nil_append]

/-! ### The located bracketing points of a descending path -/

theorem pyMinBy_take_eq {l : List RiverPoint}
    (hp : l.Pairwise (fun a b => b.mile < a.mile)) {j : ℕ} (hj : j < l.length)
    (a : RiverPoint) (as : List RiverPoint) (hcons : l.take (j + 1) = a :: as) :
    pyMinBy (fun q => q.mile) a as = l[j] := by
  have hmem : pyMinBy (fun q => q.mile) a as ∈ l.take (j + 1) := by
    rw [hcons]; exact pyMinBy_mem _ _ _
  have hub : l[j].mile ≤ (pyMinBy (fun q => q.mile) a as).mile :=
    mile_le_of_take hp hj _ hmem
  have hjmem : l[j] ∈ l.take (j + 1) := by
    refine List.mem_iff_getElem.mpr ⟨j, ?_, ?_⟩
    · rw [List.length_take]; omega
    · rw [List.getElem_take]
  have hlb : (pyMinBy (fun q => q.mile) a as).mile ≤ l[j].mile := by
    have := pyMinBy_le (fun q => q.mile) a as l[j] (by rw [← hcons]; exact hjmem)
    exact this
  exact mile_unique hp (List.take_subset _ _ hmem) (List.getElem_mem hj)
    (le_antisymm hlb hub)

theorem pyMaxBy_drop_eq {l : List RiverPoint}
    (hp : l.Pairwise (fun a b => b.mile < a.mile)) {j : ℕ} (hj : j < l.length)
    (a : RiverPoint) (as : List RiverPoint) (hcons : l.drop j = a :: as) :
    pyMaxBy (fun q => q.mile) a as = l[j] := by
  have hmem : pyMaxBy (fun q => q.mile) a as ∈ l.drop j := by
    rw [hcons]; exact pyMaxBy_mem _ _ _
  have hub : (pyMaxBy (fun q => q.mile) a as).mile ≤ l[j].mile :=
    mile_le_of_drop hp hj _ hmem
  have h2 := List.drop_eq_getElem_cons hj
  rw [hcons] at h2
  injection h2 with h2a h2b
  subst h2a
  have hlb : l[j].mile ≤ (pyMaxBy (fun q => q.mile) l[j] as).mile :=
    le_pyMaxBy (fun q => q.mile) l[j] as l[j] (List.mem_cons_self _ _)
  exact mile_unique hp (List.drop_subset _ _ hmem) (List.getElem_mem hj)
    (le_antisymm hub hlb)

/-! ### The interpolation core between adjacent bracketing anchors -/

theorem interp_between_bracket (path : List RiverPoint) (x : ℚ)
    (hp : path.Pairwise (fun a b => b.mile < a.mile)) {i : ℕ} {hi lo : RiverPoint}
    (hi1 : i < path.length) (hlo1 : i + 1 < path.length)
    (hie : path[i] = hi) (hloe : path[i + 1] = lo) (hml : lo.mile < hi.mile) :
    interp_between path x lo hi
      = some (lerp2 lo hi ((x - lo.mile) / (hi.mile - lo.mile))) := by
  have hdne : hi.mile - lo.mile ≠ 0 := sub_ne_zero.mpr (ne_of_gt hml)
  by_cases hd5 : hi.mile - lo.mile ≤ 5
  · simp only [interp_between, if_pos hd5, qdiv?, if_neg hdne, Option.bind_eq_bind,
      Option.some_bind]
  · have hfil : path.filter (fun q => decide (lo.mile ≤ q.mile ∧ q.mile ≤ hi.mile))
        = [hi, lo] := by
      have hdropi : path.drop i = hi :: lo :: path.drop (i + 2) := by
        rw [List.drop_eq_getElem_cons hi1, hie]
        congr 1
        rw [List.drop_eq_getElem_cons hlo1, hloe]
      conv_lhs => rw [← List.take_append_drop i path]
      rw [List.filter_append, hdropi]
      rw [List.filter_eq_nil_iff.mpr (fun q hq => by
        have hgt : hi.mile < q.mile := by
          have := mile_lt_of_take hp hi1 q hq
          rwa [hie] at this
        simp only [decide_eq_true_eq, not_and, not_le]
        intro _
        exact hgt)]
      rw [List.filter_cons_of_pos (by
        simp only [decide_eq_true_eq]
        exact ⟨le_of_lt hml, le_rfl⟩)]
      rw [List.filter_cons_of_pos (by
        simp only [decide_eq_true_eq]
        exact ⟨le_rfl, le_of_lt hml⟩)]
      rw [List.filter_eq_nil_iff.mpr (fun q hq => by
        have hlt : q.mile < lo.mile := by
          have := mile_lt_of_drop hp hlo1 q (by
            have : path.drop (i + 1 + 1) = path.drop (i + 2) := by norm_num
            rw [this]
            exact hq)
          rwa [hloe] at this
        simp only [decide_eq_true_eq, not_and, not_le]
        intro hc
        exact absurd hc (not_le.mpr hlt))]
      rw [List.nil_append]
    have hsort : sortAsc [hi, lo] = [lo, hi] := by
      simp only [sortAsc, insertAsc, if_neg (not_lt.mpr (le_of_lt hml))]
    simp only [interp_between, if_neg hd5, hfil, hsort]
    norm_num [qdiv?, hdne]

/-! ### The geocoder interpolates linearly between bracketing anchors -/

theorem get_coords_bracket (path : List RiverPoint) (x : ℚ)
    (hp : path.Pairwise (fun a b => b.mile < a.mile))
    (hbox : ∀ q ∈ path, 36 ≤ q.lat ∧ q.lat ≤ 37.5 ∧ -88.5 ≤ q.lon ∧ q.lon ≤ -84.5)
    (i : ℕ) (hi lo : RiverPoint)
    (hhi : path[i]? = some hi) (hlo : path[i + 1]? = some lo)
    (hx1 : lo.mile ≤ x) (hx2 : x ≤ hi.mile) :
    get_coordinates_from_river_path path x
      = some (lerp2 lo hi ((x - lo.mile) / (hi.mile - lo.mile))) := by
  obtain ⟨hlo1, hloe⟩ := List.getElem?_eq_some.mp hlo
  have hi1 : i < path.length := by omega
  have hie : path[i] = hi := by
    obtain ⟨h1, h2⟩ := List.getElem?_eq_some.mp hhi
    exact h2
  have hml : lo.mile < hi.mile := by
    have := (List.pairwise_iff_getElem.mp hp) i (i + 1) hi1 hlo1 (by omega)
    rwa [hie, hloe] at this
  have hdne : hi.mile - lo.mile ≠ 0 := sub_ne_zero.mpr (ne_of_gt hml)
  have hhim : hi ∈ path := by rw [← hie]; exact List.getElem_mem hi1
  have hlom : lo ∈ path := by rw [← hloe]; exact List.getElem_mem hlo1
  obtain ⟨p, ps, rfl⟩ := List.exists_cons_of_ne_nil
    (List.ne_nil_of_length_pos (lt_of_le_of_lt (Nat.zero_le i) hi1))
  simp only [get_coordinates_from_river_path]
  by_cases hA : (pyMaxBy (fun q => q.mile) p ps).mile ≤ x
  · have hmax_ge : hi.mile ≤ (pyMaxBy (fun q => q.mile) p ps).mile :=
      le_pyMaxBy (fun q => q.mile) p ps hi hhim
    have hxeq : x = hi.mile := le_antisymm hx2 (le_trans hmax_ge hA)
    have hmile_eq : (pyMaxBy (fun q => q.mile) p ps).mile = hi.mile :=
      le_antisymm (hxeq ▸ hA) hmax_ge
    have hmax_eq : pyMaxBy (fun q => q.mile) p ps = hi :=
      mile_unique hp (pyMaxBy_mem _ _ _) hhim hmile_eq
    rw [if_pos hA, hmax_eq, hxeq, div_self hdne]
    simp only [lerp2, Prod.mk.injEq, Option.some.injEq]
    constructor <;> ring
  · by_cases hB : x ≤ (pyMinBy (fun q => q.mile) p ps).mile
    · have hmin_le : (pyMinBy (fun q => q.mile) p ps).mile ≤ lo.mile :=
        pyMinBy_le (fun q => q.mile) p ps lo hlom
      have hxeq : x = lo.mile := le_antisymm (le_trans hB hmin_le) hx1
      have hmile_eq : (pyMinBy (fun q => q.mile) p ps).mile = lo.mile :=
        le_antisymm hmin_le (hxeq ▸ hB)
      have hmin_eq : pyMinBy (fun q => q.mile) p ps = lo :=
        mile_unique hp (pyMinBy_mem _ _ _) hlom hmile_eq
      rw [if_neg hA, if_pos hB, hmin_eq, hxeq]
      simp only [lerp2, sub_self, zero_div, Prod.mk.injEq, Option.some.injEq]
      constructor <;> ring
    · rw [if_neg hA, if_neg hB]
      rcases eq_or_lt_of_le hx2 with hxhi | hxhi
      · -- x is exactly the upper anchor's mile
        have hu : (p :: ps).filter (fun q => decide (x ≤ q.mile))
            = (p :: ps).take (i + 1) := by
          refine filter_eq_take_of (fun q hq => decide_eq_true ?_)
            (fun q hq => decide_eq_false ?_)
          · have := mile_le_of_take hp hi1 q hq
            rw [hie] at this
            linarith
          · have := mile_le_of_drop hp hlo1 q hq
            rw [hloe] at this
            exact not_le.mpr (by linarith)
        have hl2 : (p :: ps).filter (fun q => decide (q.mile ≤ x))
            = (p :: ps).drop i := by
          refine filter_eq_drop_of (fun q hq => decide_eq_false ?_)
            (fun q hq => decide_eq_true ?_)
          · have := mile_lt_of_take hp hi1 q hq
            rw [hie] at this
            exact not_le.mpr (by linarith)
          · have := mile_le_of_drop hp hi1 q hq
            rw [hie] at this
            linarith [le_of_eq hxhi]
        have hdropc : (p :: ps).drop i = hi :: (p :: ps).drop (i + 1) := by
          rw [List.drop_eq_getElem_cons hi1, hie]
        rw [hu, hl2, List.take_succ_cons, hdropc]
        simp only []
        have hup : pyMinBy (fun q => q.mile) p (List.take i ps) = hi := by
          have := pyMinBy_take_eq hp hi1 p (List.take i ps) List.take_succ_cons
          rwa [hie] at this
        have hlow : pyMaxBy (fun q => q.mile) hi ((p :: ps).drop (i + 1)) = hi := by
          have := pyMaxBy_drop_eq hp hi1 hi ((p :: ps).drop (i + 1)) hdropc
          rwa [hie] at this
        rw [hup, hlow, if_pos rfl, hxhi, div_self hdne]
        simp only [lerp2, Prod.mk.injEq, Option.some.injEq]
        constructor <;> ring
      · rcases eq_or_lt_of_le hx1 with hxlo | hxlo
        · -- x is exactly the lower anchor's mile
          have hu : (p :: ps).filter (fun q => decide (x ≤ q.mile))
              = (p :: ps).take (i + 2) := by
            refine filter_eq_take_of (fun q hq => decide_eq_true ?_)
              (fun q hq => decide_eq_false ?_)
            · have := mile_le_of_take hp hlo1 q hq
              rw [hloe] at this
              linarith [le_of_eq hxlo]
            · have := mile_lt_of_drop hp hlo1 q hq
              rw [hloe] at this
              exact not_le.mpr (by linarith [le_of_eq hxlo])
          have hl2 : (p :: ps).filter (fun q => decide (q.mile ≤ x))
              = (p :: ps).drop (i + 1) := by
            refine filter_eq_drop_of (fun q hq => decide_eq_false ?_)
              (fun q hq => decide_eq_true ?_)
            · have := mile_le_of_take hp hi1 q hq
              rw [hie] at this
              exact not_le.mpr (by linarith)
            · have := mile_le_of_drop hp hlo1 q hq
              rw [hloe] at this
              linarith [le_of_eq hxlo]
          have hdropc : (p :: ps).drop (i + 1) = lo :: (p :: ps).drop (i + 2) := by
            rw [List.drop_eq_getElem_cons hlo1, hloe]
          rw [hu, hl2, List.take_succ_cons, hdropc]
          simp only []
          have hup : pyMinBy (fun q => q.mile) p (List.take (i + 1) ps) = lo := by
            have := pyMinBy_take_eq hp hlo1 p (List.take (i + 1) ps) List.take_succ_cons
            rwa [hloe] at this
          have hlow : pyMaxBy (fun q => q.mile) lo ((p :: ps).drop (i + 2)) = lo := by
            have := pyMaxBy_drop_eq hp hlo1 lo ((p :: ps).drop (i + 2)) hdropc
            rwa [hloe] at this
          rw [hup, hlow, if_pos rfl, ← hxlo]
          simp only [lerp2, sub_self, zero_div, Prod.mk.injEq, Option.some.injEq]
          constructor <;> ring
        · -- x lies strictly between the two anchors
          have hu : (p :: ps).filter (fun q => decide (x ≤ q.mile))
              = (p :: ps).take (i + 1) := by
            refine filter_eq_take_of (fun q hq => decide_eq_true ?_)
              (fun q hq => decide_eq_false ?_)
            · have := mile_le_of_take hp hi1 q hq
              rw [hie] at this
              linarith
            · have := mile_le_of_drop hp hlo1 q hq
              rw [hloe] at this
              exact not_le.mpr (by linarith)
          have hl2 : (p :: ps).filter (fun q => decide (q.mile ≤ x))
              = (p :: ps).drop (i + 1) := by
            refine filter_eq_drop_of (fun q hq => decide_eq_false ?_)
              (fun q hq => decide_eq_true ?_)
            · have := mile_le_of_take hp hi1 q hq
              rw [hie] at this
              exact not_le.mpr (by linarith)
            · have := mile_le_of_drop hp hlo1 q hq
              rw [hloe] at this
              linarith
          have hdropc : (p :: ps).drop (i + 1) = lo :: (p :: ps).drop (i + 2) := by
            rw [List.drop_eq_getElem_cons hlo1, hloe]
          rw [hu, hl2, List.take_succ_cons, hdropc]
          simp only []
          have hup : pyMinBy (fun q => q.mile) p (List.take i ps) = hi := by
            have := pyMinBy_take_eq hp hi1 p (List.take i ps) List.take_succ_cons
            rwa [hie] at this
          have hlow : pyMaxBy (fun q => q.mile) lo ((p :: ps).drop (i + 2)) = lo := by
            have := pyMaxBy_drop_eq hp hlo1 lo ((p :: ps).drop (i + 2)) hdropc
            rwa [hloe] at this
          rw [hup, hlow, if_neg (ne_of_gt hml)]
          rw [interp_between_bracket (p :: ps) x hp hi1 hlo1 hie hloe hml]
          simp only [Option.some_bind]
          have hr0 : 0 ≤ (x - lo.mile) / (hi.mile - lo.mile) :=
            div_nonneg (by linarith) (by linarith)
          have hr1 : (x - lo.mile) / (hi.mile - lo.mile) ≤ 1 :=
            (div_le_one (by linarith)).mpr (by linarith)
          obtain ⟨hlo_a, hlo_b, hlo_c, hlo_d⟩ := hbox lo hlom
          obtain ⟨hhi_a, hhi_b, hhi_c, hhi_d⟩ := hbox hi hhim
          have hlatB := lerp_bound hlo_a hlo_b hhi_a hhi_b hr0 hr1
          have hlonB := lerp_bound hlo_c hlo_d hhi_c hhi_d hr0 hr1
          simp only [lerp2, validate_river_coordinates]
          rw [if_pos ⟨hlatB.1, hlatB.2, hlonB.1, hlonB.2⟩]

/-! ### Clamping at the ends of the table -/

theorem get_coords_clamp_high (p : RiverPoint) (ps : List RiverPoint) (x : ℚ)
    (h : (pyMaxBy (fun q => q.mile) p ps).mile ≤ x) :
    get_coordinates_from_river_path (p :: ps) x
      = some ((pyMaxBy (fun q => q.mile) p ps).lat, (pyMaxBy (fun q => q.mile) p ps).lon) := by
  simp only [get_coordinates_from_river_path]
  rw [if_pos h]

theorem get_coords_clamp_low (p : RiverPoint) (ps : List RiverPoint) (x : ℚ)
    (h1 : ¬(pyMaxBy (fun q => q.mile) p ps).mile ≤ x)
    (h2 : x ≤ (pyMinBy (fun q => q.mile) p ps).mile) :
    get_coordinates_from_river_path (p :: ps) x
      = some ((pyMinBy (fun q => q.mile) p ps).lat, (pyMinBy (fun q => q.mile) p ps).lon) := by
  simp only [get_coordinates_from_river_path]
  rw [if_neg h1, if_pos h2]

/-! ### Totality: every branch yields a coordinate -/

theorem find_closest_dam_isSome (m : ℚ) : (find_closest_dam_by_mile m).isSome = true := by
  rw [find_closest_dam_by_mile]
  simp [dams]

theorem validate_isSome (lat lon m : ℚ) :
    (validate_river_coordinates lat lon m).isSome = true := by
  rw [validate_river_coordinates]
  split
  · rfl
  · obtain ⟨d, hd⟩ := Option.isSome_iff_exists.mp (find_closest_dam_isSome m)
    rw [hd]
    rfl

theorem spline_interp_isSome (inter : List RiverPoint) (t : ℚ) (h3 : 3 ≤ inter.length) :
    (spline_interp inter t).isSome = true := by
  have hne : inter ≠ [] := by
    intro h
    rw [h] at h3
    simp at h3
  have hci : closestIdx inter t < inter.length := closestIdx_lt inter t hne
  rw [spline_interp]
  split
  · rename_i hlt
    rw [List.getElem?_eq_getElem hci]
    rw [List.getElem?_eq_getElem (by omega : closestIdx inter t + 1 < inter.length)]
    rfl
  · rw [List.getElem?_eq_getElem hci]
    rfl

theorem interp_between_isSome (path : List RiverPoint) (t : ℚ) (lower upper : RiverPoint)
    (h : upper.mile ≠ lower.mile) : (interp_between path t lower upper).isSome = true := by
  have hd : upper.mile - lower.mile ≠ 0 := sub_ne_zero.mpr h
  simp only [interp_between]
  split
  · simp [qdiv?, hd]
  · split
    · rename_i h3
      exact spline_interp_isSome _ t h3
    · simp [qdiv?, hd]

theorem get_coords_isSome (path : List RiverPoint) (x : ℚ) :
    (get_coordinates_from_river_path path x).isSome = true := by
  cases path with
  | nil => rfl
  | cons p ps =>
    simp only [get_coordinates_from_river_path]
    split
    · rfl
    · split
      · rfl
      · split
        · rfl
        · rfl
        · rename_i u us l ls hq1 hq2
          split
          · rfl
          · rename_i hne
            obtain ⟨c, hc⟩ := Option.isSome_iff_exists.mp
              (interp_between_isSome (p :: ps) x (pyMaxBy (fun q => q.mile) l ls)
                (pyMinBy (fun q => q.mile) u us) hne)
            rw [hc, Option.some_bind]
            exact validate_isSome c.1 c.2 x

theorem calculate_flow_isSome (path : List RiverPoint) (dam : Dam) (user_mile : ℚ)
    (flow_data : Option GaugeData) (now : ℚ) :
    (calculate_flow_with_timing path dam user_mile flow_data now).isSome = true := by
  obtain ⟨c, hc⟩ := Option.isSome_iff_exists.mp (get_coords_isSome path user_mile)
  rw [calculate_flow_with_timing.eq_def, hc, Option.some_bind]
  dsimp only
  split <;> rfl

/-! ### The extreme anchors of the program's river path -/

theorem pyMaxBy_desc_head (p : RiverPoint) (ps : List RiverPoint)
    (hp : (p :: ps).Pairwise (fun a b => b.mile < a.mile)) :
    pyMaxBy (fun q => q.mile) p ps = p := by
  have hall : ∀ y ∈ p :: ps, y.mile ≤ p.mile := by
    intro y hy
    rcases List.mem_cons.mp hy with h | h
    · rw [h]
    · exact le_of_lt ((List.pairwise_cons.mp hp).1 y h)
  have h1 : p.mile ≤ (pyMaxBy (fun q => q.mile) p ps).mile :=
    le_pyMaxBy (fun q => q.mile) p ps p (List.mem_cons_self _ _)
  have h2 : (pyMaxBy (fun q => q.mile) p ps).mile ≤ p.mile :=
    hall _ (pyMaxBy_mem _ _ _)
  exact mile_unique hp (pyMaxBy_mem _ _ _) (List.mem_cons_self _ _) (le_antisymm h2 h1)

theorem river_points_cons : river_points = rp0 :: rpTail := rfl

theorem river_path_max : pyMaxBy (fun q => q.mile) rp0 rpTail = rp0 := by
  apply pyMaxBy_desc_head
  rw [← river_points_cons]
  exact river_points_pairwise

theorem river_path_min :
    pyMinBy (fun q => q.mile) rp0 rpTail = (⟨0.0, 36.9200, -88.4000⟩ : RiverPoint) := by
  have h := @pyMinBy_take_eq river_points river_points_pairwise
    94 (by decide) rp0 rpTail (by rfl)
  rw [h]
  rfl

theorem river_path_box :
    ∀ q ∈ river_path, 36 ≤ q.lat ∧ q.lat ≤ 37.5 ∧ -88.5 ≤ q.lon ∧ q.lon ≤ -84.5 := by
  rw [river_path_eq]
  exact river_points_box

/-! ### Concrete clamped lookups -/

theorem coords_clamped_low (x : ℚ) (h : x ≤ 0) :
    get_coordinates_from_river_path river_path x = some (36.92, -88.4) := by
  rw [river_path_eq, river_points_cons]
  rw [get_coords_clamp_low rp0 rpTail x
    (by rw [river_path_max]; norm_num [rp0]; linarith)
    (by rw [river_path_min]; show x ≤ (0.0 : ℚ); norm_num; linarith)]
  rw [river_path_min]
  norm_num

theorem coords_clamped_high (x : ℚ) (h : 460.9 ≤ x) :
    get_coordinates_from_river_path river_path x = some (36.8939, -84.9269) := by
  rw [river_path_eq, river_points_cons]
  rw [get_coords_clamp_high rp0 rpTail x (by rw [river_path_max]; simpa [rp0] using h)]
  rw [river_path_max]
  norm_num [rp0]

/-! ### Concrete interpolated lookups used by the engine evaluations -/

theorem coords_at_300 :
    get_coordinates_from_river_path river_path 300 = some (36.2, -85.88) := by
  rw [get_coords_bracket river_path 300 river_path_pairwise river_path_box
    32 ⟨305.0, 36.1800, -85.8600⟩ ⟨300.0, 36.2000, -85.8800⟩
    (by rw [river_path_eq]; rfl) (by rw [river_path_eq]; rfl)
    (by norm_num) (by norm_num)]
  norm_num [lerp2]

theorem coords_at_166 :
    get_coordinates_from_river_path river_path 166.2 = some (36.1752, -86.7252) := by
  rw [get_coords_bracket river_path 166.2 river_path_pairwise river_path_box
    59 ⟨170.0, 36.1600, -86.7100⟩ ⟨165.0, 36.1800, -86.7300⟩
    (by rw [river_path_eq]; rfl) (by rw [river_path_eq]; rfl)
    (by norm_num) (by norm_num)]
  norm_num [lerp2]

theorem coords_at_206 :
    get_coordinates_from_river_path river_path 206.2 = some (36.2648, -86.5152) := by
  rw [get_coords_bracket river_path 206.2 river_path_pairwise river_path_box
    51 ⟨210.0, 36.2800, -86.5000⟩ ⟨205.0, 36.2600, -86.5200⟩
    (by rw [river_path_eq]; rfl) (by rw [river_path_eq]; rfl)
    (by norm_num) (by norm_num)]
  norm_num [lerp2]

theorem coords_at_196 :
    get_coordinates_from_river_path river_path 196.2 = some (36.2248, -86.5552) := by
  rw [get_coords_bracket river_path 196.2 river_path_pairwise river_path_box
    53 ⟨200.0, 36.2400, -86.5400⟩ ⟨195.0, 36.2200, -86.5600⟩
    (by rw [river_path_eq]; rfl) (by rw [river_path_eq]; rfl)
    (by norm_num) (by norm_num)]
  norm_num [lerp2]

/-! ### Four concrete engine runs -/

theorem calc_up_300 :
    calculate_flow_with_timing river_path oldHickoryDam 300 none 0 = some upRes300 := by
  rw [calculate_flow_with_timing.eq_def, coords_at_300, Option.some_bind]
  dsimp only
  rw [if_neg (by norm_num [oldHickoryDam])]
  norm_num [upRes300, oldHickoryDam, FlowResult.mk.injEq]

theorem calc_down_166 :
    calculate_flow_with_timing river_path oldHickoryDam 166.2 (some ⟨100000, 7⟩) 0
      = some downRes166 := by
  rw [calculate_flow_with_timing.eq_def, coords_at_166, Option.some_bind]
  dsimp only
  rw [if_pos (by norm_num [oldHickoryDam])]
  norm_num [downRes166, oldHickoryDam, FlowResult.mk.injEq,
    calculate_river_distance_miles, calculate_travel_time_hours,
    abs_of_nonneg (by norm_num : (0 : ℚ) ≤ 216.2 - 166.2)]

theorem calc_down_206 :
    calculate_flow_with_timing river_path oldHickoryDam 206.2 (some ⟨100000, 7⟩) 0
      = some downRes206 := by
  rw [calculate_flow_with_timing.eq_def, coords_at_206, Option.some_bind]
  dsimp only
  rw [if_pos (by norm_num [oldHickoryDam])]
  norm_num [downRes206, oldHickoryDam, FlowResult.mk.injEq,
    calculate_river_distance_miles, calculate_travel_time_hours,
    abs_of_nonneg (by norm_num : (0 : ℚ) ≤ 216.2 - 206.2)]

theorem calc_down_196 :
    calculate_flow_with_timing river_path oldHickoryDam 196.2 (some ⟨100000, 7⟩) 0
      = some downRes196 := by
  rw [calculate_flow_with_timing.eq_def, coords_at_196, Option.some_bind]
  dsimp only
  rw [if_pos (by norm_num [oldHickoryDam])]
  norm_num [downRes196, oldHickoryDam, FlowResult.mk.injEq,
    calculate_river_distance_miles, calculate_travel_time_hours,
    abs_of_nonneg (by norm_num : (0 : ℚ) ≤ 216.2 - 196.2)]

/-! ### Field characterization of the engine result, by direction -/

theorem calc_downstream_spec (path : List RiverPoint) (dam : Dam) (mile : ℚ)
    (fd : Option GaugeData) (now : ℚ) (r : FlowResult)
    (h : calculate_flow_with_timing path dam mile fd now = some r)
    (hdown : mile < dam.river_mile) :
    r.current_flow_at_dam
        = (match fd with | some g => g.flow_cfs | none => dam.capacity_cfs * 0.4) ∧
      r.travel_miles = dam.river_mile - mile ∧
      r.travel_time_hours = (dam.river_mile - mile) / 3 ∧
      r.arrival_time = now + (dam.river_mile - mile) / 3 ∧
      r.flow_at_user_location
        = (r.current_flow_at_dam : ℝ) * Real.exp (-((r.travel_miles : ℚ) : ℝ) / 100) ∧
      r.data_timestamp = (match fd with | some g => g.timestamp | none => now) ∧
      r.flow_data_available = fd.isSome := by
  obtain ⟨c, hc⟩ := Option.isSome_iff_exists.mp (get_coords_isSome path mile)
  rw [calculate_flow_with_timing.eq_def, hc, Option.some_bind] at h
  dsimp only at h
  rw [if_pos hdown] at h
  have habs : |dam.river_mile - mile| = dam.river_mile - mile :=
    abs_of_nonneg (sub_nonneg.mpr (le_of_lt hdown))
  obtain rfl := (Option.some.injEq _ _).mp h
  rcases fd with _ | g <;>
    simp [calculate_river_distance_miles, calculate_travel_time_hours, habs]

theorem calc_upstream_spec (path : List RiverPoint) (dam : Dam) (mile : ℚ)
    (fd : Option GaugeData) (now : ℚ) (r : FlowResult)
    (h : calculate_flow_with_timing path dam mile fd now = some r)
    (hup : dam.river_mile ≤ mile) :
    r.current_flow_at_dam
        = (match fd with | some g => g.flow_cfs | none => dam.capacity_cfs * 0.4) ∧
      r.travel_miles = 0 ∧
      r.travel_time_hours = 0 ∧
      r.arrival_time = now ∧
      r.flow_at_user_location = (r.current_flow_at_dam : ℝ) * 0.5 ∧
      r.data_timestamp = (match fd with | some g => g.timestamp | none => now) ∧
      r.flow_data_available = fd.isSome := by
  obtain ⟨c, hc⟩ := Option.isSome_iff_exists.mp (get_coords_isSome path mile)
  rw [calculate_flow_with_timing.eq_def, hc, Option.some_bind] at h
  dsimp only at h
  rw [if_neg (not_lt.mpr hup)] at h
  obtain rfl := (Option.some.injEq _ _).mp h
  rcases fd with _ | g <;> simp

/-! ### Numeric bounds for the attenuation example -/

theorem exp_neg_half_bounds :
    (0.60652 : ℝ) ≤ Real.exp (-(1 / 2 : ℝ)) ∧ Real.exp (-(1 / 2 : ℝ)) ≤ 0.60654 := by
  have hy : Real.exp (-(1 / 2 : ℝ)) * Real.exp (-(1 / 2 : ℝ)) = (Real.exp 1)⁻¹ := by
    rw [← Real.exp_add]
    norm_num [Real.exp_neg]
  have hpos : 0 < Real.exp (-(1 / 2 : ℝ)) := Real.exp_pos _
  have hg := Real.exp_one_gt_d9
  have hl := Real.exp_one_lt_d9
  have hepos : 0 < Real.exp 1 := Real.exp_pos 1
  have hmul : Real.exp (-(1 / 2 : ℝ)) * Real.exp (-(1 / 2 : ℝ)) * Real.exp 1 = 1 := by
    rw [hy]
    field_simp
  constructor
  · nlinarith [hpos, hg, hl, hmul, hepos]
  · nlinarith [hpos, hg, hl, hmul, hepos]

/-! ## The claims -/

/-- C2: for every river mile `x` within the domain of the river path,
the coordinate returned by `get_coordinates_from_river_path` is the
linear interpolation of latitude and longitude between the two
bracketing anchors of `river_path` (hence lies on the straight segment
joining them), with ratio the fractional position of `x`. -/
theorem c2_linear_interpolation (x : ℚ) (i : ℕ) (hi lo : RiverPoint)
    (hhi : river_path[i]? = some hi) (hlo : river_path[i + 1]? = some lo)
    (hx1 : lo.mile ≤ x) (hx2 : x ≤ hi.mile) :
    get_coordinates_from_river_path river_path x
      = some (lerp2 lo hi ((x - lo.mile) / (hi.mile - lo.mile))) :=
  get_coords_bracket river_path x river_path_pairwise river_path_box i hi lo hhi hlo hx1 hx2

/-- Witness for C2 at mile 452, bracketed by the anchors at miles 450
and 455: the result is the exact linear interpolation. -/
theorem c2_linear_interpolation_witness :
    get_coordinates_from_river_path river_path 452 = some (36.879, -84.901) := by
  rw [c2_linear_interpolation 452 1 ⟨455.0, 36.8850, -84.9100⟩ ⟨450.0, 36.8750, -84.8950⟩
    (by rw [river_path_eq]; rfl) (by rw [river_path_eq]; rfl) (by norm_num) (by norm_num)]
  norm_num [lerp2]

/-- C3: whenever the gauge client returns `none` (any failure), the
engine reports stale data (`flow_data_available = false`), falls back to
exactly `capacity_cfs * 0.4` as the flow at the dam, and stamps the
current time. -/
theorem c3_gauge_failure_fallback (dam : Dam) (mile now : ℚ) :
    (calculate_flow_with_timing river_path dam mile none now).map
        (fun r => (r.current_flow_at_dam, r.data_timestamp, r.flow_data_available))
      = some (dam.capacity_cfs * 0.4, now, false) := by
  obtain ⟨r, hr⟩ := Option.isSome_iff_exists.mp
    (calculate_flow_isSome river_path dam mile none now)
  rcases lt_or_ge mile dam.river_mile with hdir | hdir
  · obtain ⟨h1, _, _, _, _, h6, h7⟩ :=
      calc_downstream_spec river_path dam mile none now r hr hdir
    simp [hr, h1, h6, h7]
  · obtain ⟨h1, _, _, _, _, h6, h7⟩ :=
      calc_upstream_spec river_path dam mile none now r hr hdir
    simp [hr, h1, h6, h7]

/-- C4: a query at or upstream of the source dam yields zero travel
distance and time, arrival now, and half of the source flow. -/
theorem c4_upstream_query (dam : Dam) (mile : ℚ) (fd : Option GaugeData) (now : ℚ)
    (r : FlowResult)
    (h : calculate_flow_with_timing river_path dam mile fd now = some r)
    (hup : dam.river_mile ≤ mile) :
    r.travel_miles = 0 ∧ r.travel_time_hours = 0 ∧ r.arrival_time = now ∧
      r.flow_at_user_location = (r.current_flow_at_dam : ℝ) * 0.5 := by
  obtain ⟨_, h2, h3, h4, h5, _, _⟩ := calc_upstream_spec river_path dam mile fd now r h hup
  exact ⟨h2, h3, h4, h5⟩

/-- Witness for C4: the upstream query at mile 300 against Old Hickory
Dam (mile 216.2). -/
theorem c4_upstream_query_witness :
    upRes300.travel_miles = 0 ∧ upRes300.travel_time_hours = 0 ∧
      upRes300.arrival_time = 0 ∧
      upRes300.flow_at_user_location = (upRes300.current_flow_at_dam : ℝ) * 0.5 :=
  c4_upstream_query oldHickoryDam 300 none 0 upRes300 calc_up_300
    (by norm_num [oldHickoryDam])

/-- C6: for downstream queries the reported travel distance is exactly
the river-mile delta `dam.river_mile - mile` (the value of
`calculate_river_distance_miles`, not a geographic polyline length),
and the travel time is that same delta over the assumed velocity. -/
theorem c6_travel_is_mile_delta (dam : Dam) (mile : ℚ) (fd : Option GaugeData)
    (now : ℚ) (r : FlowResult)
    (h : calculate_flow_with_timing river_path dam mile fd now = some r)
    (hdown : mile < dam.river_mile) :
    r.travel_miles = dam.river_mile - mile ∧
      r.travel_miles = calculate_river_distance_miles dam.river_mile mile ∧
      r.travel_time_hours = (dam.river_mile - mile) / 3 := by
  obtain ⟨_, h2, h3, _, _, _, _⟩ := calc_downstream_spec river_path dam mile fd now r h hdown
  refine ⟨h2, ?_, h3⟩
  rw [h2, calculate_river_distance_miles, abs_of_nonneg (by linarith)]

/-- Witness for C6: 50 miles from Old Hickory Dam (mile 216.2) to mile
166.2. -/
theorem c6_travel_is_mile_delta_witness :
    downRes166.travel_miles = 216.2 - 166.2 ∧
      downRes166.travel_miles = calculate_river_distance_miles 216.2 166.2 ∧
      downRes166.travel_time_hours = (216.2 - 166.2) / 3 := by
  have h := c6_travel_is_mile_delta oldHickoryDam 166.2 (some ⟨100000, 7⟩) 0 downRes166
    calc_down_166 (by norm_num [oldHickoryDam])
  simpa [oldHickoryDam] using h

/-- C7: river miles below the minimum anchor (mile 0, the mouth) clamp
to the mouth's coordinate, and miles at or above the maximum anchor
(mile 460.9, Wolf Creek Dam) clamp to that anchor's coordinate; no
extrapolation happens. -/
theorem c7_endpoint_clamping (x : ℚ) :
    (x < 0 → get_coordinates_from_river_path river_path x = some (36.92, -88.4)) ∧
      (460.9 ≤ x →
        get_coordinates_from_river_path river_path x = some (36.8939, -84.9269)) :=
  ⟨fun h => coords_clamped_low x (le_of_lt h), fun h => coords_clamped_high x h⟩

/-- Witness for C7 at miles -5 and 500. -/
theorem c7_endpoint_clamping_witness :
    get_coordinates_from_river_path river_path (-5) = some (36.92, -88.4) ∧
      get_coordinates_from_river_path river_path 500 = some (36.8939, -84.9269) :=
  ⟨(c7_endpoint_clamping (-5)).1 (by norm_num),
   (c7_endpoint_clamping 500).2 (by norm_num)⟩

/-- C8: the geocoder never fails (every modelled exception branch is
avoided and a coordinate is produced for every rational input, on every
path), and the engine produces a result even when the gauge data is
missing. -/
theorem c8_no_exceptions :
    (∀ (path : List RiverPoint) (x : ℚ),
        (get_coordinates_from_river_path path x).isSome = true) ∧
      (∀ (dam : Dam) (mile now : ℚ),
        (calculate_flow_with_timing river_path dam mile none now).isSome = true) :=
  ⟨fun path x => get_coords_isSome path x,
   fun dam mile now => calculate_flow_isSome river_path dam mile none now⟩

/-- C5: for downstream queries with non-negative source flow the engine
returns `targetFlow = sourceFlow * exp(-travelDistance / 100)`, a value
that is never negative and never exceeds the source flow; and in
particular a 100000 cfs source 50 miles upstream yields a target flow of
about `100000 * exp(-1/2) ≈ 60653` (between 60652 and 60654). -/
theorem c5_exponential_attenuation (dam : Dam) (mile : ℚ) (fd : Option GaugeData)
    (now : ℚ) (r : FlowResult)
    (h : calculate_flow_with_timing river_path dam mile fd now = some r)
    (hdown : mile < dam.river_mile) (hflow : 0 ≤ r.current_flow_at_dam) :
    r.flow_at_user_location
        = (r.current_flow_at_dam : ℝ) * Real.exp (-((r.travel_miles : ℚ) : ℝ) / 100) ∧
      0 ≤ r.flow_at_user_location ∧
      r.flow_at_user_location ≤ (r.current_flow_at_dam : ℝ) ∧
      (∀ rex : FlowResult,
        calculate_flow_with_timing river_path oldHickoryDam 166.2 (some ⟨100000, 7⟩) 0
            = some rex →
          (60652 : ℝ) ≤ rex.flow_at_user_location ∧
            rex.flow_at_user_location ≤ 60654) := by
  obtain ⟨_, h2, _, _, h5, _, _⟩ := calc_downstream_spec river_path dam mile fd now r h hdown
  have hflowR : (0 : ℝ) ≤ (r.current_flow_at_dam : ℝ) := by exact_mod_cast hflow
  have htravel : (0 : ℚ) ≤ r.travel_miles := by rw [h2]; linarith
  have hexp_le_one : Real.exp (-((r.travel_miles : ℚ) : ℝ) / 100) ≤ 1 := by
    have harg : -((r.travel_miles : ℚ) : ℝ) / 100 ≤ 0 := by
      have : (0 : ℝ) ≤ ((r.travel_miles : ℚ) : ℝ) := by exact_mod_cast htravel
      linarith
    calc Real.exp (-((r.travel_miles : ℚ) : ℝ) / 100)
        ≤ Real.exp 0 := Real.exp_le_exp.mpr harg
      _ = 1 := Real.exp_zero
  refine ⟨h5, ?_, ?_, ?_⟩
  · rw [h5]
    exact mul_nonneg hflowR (le_of_lt (Real.exp_pos _))
  · rw [h5]
    exact mul_le_of_le_one_right hflowR hexp_le_one
  · intro rex hrex
    rw [calc_down_166] at hrex
    obtain rfl := (Option.some.injEq _ _).mp hrex
    have hval : downRes166.flow_at_user_location
        = (100000 : ℝ) * Real.exp (-(1 / 2 : ℝ)) := by
      rw [downRes166]
      norm_num
    rw [hval]
    obtain ⟨hb1, hb2⟩ := exp_neg_half_bounds
    constructor <;> nlinarith [hb1, hb2]

/-- Witness for C5: the downstream query at mile 166.2 against Old
Hickory Dam with a 100000 cfs gauge reading. -/
theorem c5_exponential_attenuation_witness :
    downRes166.flow_at_user_location
        = (downRes166.current_flow_at_dam : ℝ)
            * Real.exp (-((downRes166.travel_miles : ℚ) : ℝ) / 100) ∧
      0 ≤ downRes166.flow_at_user_location ∧
      downRes166.flow_at_user_location ≤ (downRes166.current_flow_at_dam : ℝ) := by
  obtain ⟨h1, h2, h3, _⟩ := c5_exponential_attenuation oldHickoryDam 166.2
    (some ⟨100000, 7⟩) 0 downRes166 calc_down_166 (by norm_num [oldHickoryDam])
    (by rw [downRes166]; norm_num)
  exact ⟨h1, h2, h3⟩

/-- Counterexample to C9 as frozen: the claim quantifies over every
fixed sourceFlow, but when the gauge reports a negative discharge
(-100 cfs, which the code accepts unvalidated), the attenuated flow at
travel distance 10 is strictly smaller than at travel distance 20,
violating the claimed `targetFlow(d1) ≥ targetFlow(d2)`. -/
theorem c9_monotonic_decay_counterexample :
    (calculate_flow_with_timing river_path oldHickoryDam 206.2 (some ⟨-100, 7⟩) 0).map
        FlowResult.travel_miles = some 10 ∧
      (calculate_flow_with_timing river_path oldHickoryDam 196.2 (some ⟨-100, 7⟩) 0).map
        FlowResult.travel_miles = some 20 ∧
      (calculate_flow_with_timing river_path oldHickoryDam 206.2 (some ⟨-100, 7⟩) 0).map
        FlowResult.flow_at_user_location
          = some ((-100 : ℝ) * Real.exp (-(10 : ℝ) / 100)) ∧
      (calculate_flow_with_timing river_path oldHickoryDam 196.2 (some ⟨-100, 7⟩) 0).map
        FlowResult.flow_at_user_location
          = some ((-100 : ℝ) * Real.exp (-(20 : ℝ) / 100)) ∧
      (-100 : ℝ) * Real.exp (-(10 : ℝ) / 100)
        < (-100 : ℝ) * Real.exp (-(20 : ℝ) / 100) := by
  obtain ⟨r1, hr1⟩ := Option.isSome_iff_exists.mp
    (calculate_flow_isSome river_path oldHickoryDam 206.2 (some ⟨-100, 7⟩) 0)
  obtain ⟨r2, hr2⟩ := Option.isSome_iff_exists.mp
    (calculate_flow_isSome river_path oldHickoryDam 196.2 (some ⟨-100, 7⟩) 0)
  obtain ⟨h1a, h1b, _, _, h1e, _, _⟩ := calc_downstream_spec river_path oldHickoryDam
    206.2 (some ⟨-100, 7⟩) 0 r1 hr1 (by norm_num [oldHickoryDam])
  obtain ⟨h2a, h2b, _, _, h2e, _, _⟩ := calc_downstream_spec river_path oldHickoryDam
    196.2 (some ⟨-100, 7⟩) 0 r2 hr2 (by norm_num [oldHickoryDam])
  have ht1 : r1.travel_miles = 10 := by rw [h1b]; norm_num [oldHickoryDam]
  have ht2 : r2.travel_miles = 20 := by rw [h2b]; norm_num [oldHickoryDam]
  have hc1 : r1.current_flow_at_dam = -100 := h1a
  have hc2 : r2.current_flow_at_dam = -100 := h2a
  have hf1 : r1.flow_at_user_location = (-100 : ℝ) * Real.exp (-(10 : ℝ) / 100) := by
    rw [h1e, hc1, ht1]
    norm_num
  have hf2 : r2.flow_at_user_location = (-100 : ℝ) * Real.exp (-(20 : ℝ) / 100) := by
    rw [h2e, hc2, ht2]
    norm_num
  have hlt : (-100 : ℝ) * Real.exp (-(10 : ℝ) / 100)
      < (-100 : ℝ) * Real.exp (-(20 : ℝ) / 100) := by
    have hexp : Real.exp (-(20 : ℝ) / 100) < Real.exp (-(10 : ℝ) / 100) :=
      Real.exp_lt_exp.mpr (by norm_num)
    nlinarith [hexp]
  refine ⟨?_, ?_, ?_, ?_, hlt⟩
  · rw [hr1]; simp [ht1]
  · rw [hr2]; simp [ht2]
  · rw [hr1]; simp [hf1]
  · rw [hr2]; simp [hf2]

/-- C9 amended: monotonic decay holds for every fixed **non-negative**
sourceFlow — for two downstream queries against the same dam with the
same gauge response, the shorter travel distance yields at least as much
flow. -/
theorem c9_monotonic_decay (dam : Dam) (m1 m2 : ℚ) (fd : Option GaugeData) (now : ℚ)
    (r1 r2 : FlowResult)
    (h1 : calculate_flow_with_timing river_path dam m1 fd now = some r1)
    (h2 : calculate_flow_with_timing river_path dam m2 fd now = some r2)
    (hlt : m2 < m1) (hdown : m1 < dam.river_mile)
    (hflow : 0 ≤ r1.current_flow_at_dam) :
    r2.flow_at_user_location ≤ r1.flow_at_user_location := by
  obtain ⟨h1a, h1b, _, _, h1e, _, _⟩ :=
    calc_downstream_spec river_path dam m1 fd now r1 h1 hdown
  obtain ⟨h2a, h2b, _, _, h2e, _, _⟩ :=
    calc_downstream_spec river_path dam m2 fd now r2 h2 (by linarith)
  have hcc : r2.current_flow_at_dam = r1.current_flow_at_dam := by
    rw [h1a, h2a]
    rcases fd with _ | g <;> rfl
  have hccR : (0 : ℝ) ≤ (r1.current_flow_at_dam : ℝ) := by exact_mod_cast hflow
  have hexp : Real.exp (-((r2.travel_miles : ℚ) : ℝ) / 100)
      ≤ Real.exp (-((r1.travel_miles : ℚ) : ℝ) / 100) := by
    apply Real.exp_le_exp.mpr
    have : (r1.travel_miles : ℚ) ≤ (r2.travel_miles : ℚ) := by
      rw [h1b, h2b]; linarith
    have hR : ((r1.travel_miles : ℚ) : ℝ) ≤ ((r2.travel_miles : ℚ) : ℝ) := by
      exact_mod_cast this
    linarith
  rw [h1e, h2e, hcc]
  exact mul_le_mul_of_nonneg_left hexp hccR

/-- Witness for the amended C9: miles 206.2 and 196.2 below Old Hickory
Dam with a 100000 cfs reading. -/
theorem c9_monotonic_decay_witness :
    downRes196.flow_at_user_location ≤ downRes206.flow_at_user_location :=
  c9_monotonic_decay oldHickoryDam 206.2 196.2 (some ⟨100000, 7⟩) 0
    downRes206 downRes196 calc_down_206 calc_down_196 (by norm_num)
    (by norm_num [oldHickoryDam]) (by rw [downRes206]; norm_num)

/-- Counterexample to C1 as frozen: river mile 1000 is strictly above
every anchor of the river path (out of domain), yet no validation error
occurs — the geocoder silently clamps the query to the maximum anchor's
coordinate and the engine happily returns a result. -/
theorem c1_invalid_query_counterexample :
    river_path.all (fun q => decide (q.mile < 1000)) = true ∧
      get_coordinates_from_river_path river_path 1000 = some (36.8939, -84.9269) ∧
      (calculate_flow_with_timing river_path oldHickoryDam 1000 none 0).isSome
        = true := by
  refine ⟨?_, coords_clamped_high 1000 (by norm_num),
    calculate_flow_isSome river_path oldHickoryDam 1000 none 0⟩
  rw [river_path_eq]
  simp only [river_points, List.all_cons, List.all_nil, Bool.and_eq_true,
    decide_eq_true_eq, and_true]
  norm_num

/-- C1 amended: an out-of-domain `targetRiverDistance` is **not**
rejected; the geocoder silently clamps it to the nearest endpoint
anchor's coordinate and `calculate_flow_with_timing` still returns a
normal result (there is no validation error path in the code). -/
theorem c1_invalid_query_clamped (x : ℚ) (dam : Dam) (now : ℚ)
    (h : x < 0 ∨ 460.9 < x) :
    (get_coordinates_from_river_path river_path x = some (36.92, -88.4) ∨
        get_coordinates_from_river_path river_path x = some (36.8939, -84.9269)) ∧
      (calculate_flow_with_timing river_path dam x none now).isSome = true := by
  refine ⟨?_, calculate_flow_isSome river_path dam x none now⟩
  rcases h with h | h
  · exact Or.inl (coords_clamped_low x (le_of_lt h))
  · exact Or.inr (coords_clamped_high x (le_of_lt h))

/-- Witness for the amended C1 at mile 1000. -/
theorem c1_invalid_query_clamped_witness :
    (get_coordinates_from_river_path river_path 1000 = some (36.92, -88.4) ∨
        get_coordinates_from_river_path river_path 1000 = some (36.8939, -84.9269)) ∧
      (calculate_flow_with_timing river_path oldHickoryDam 1000 none 0).isSome
        = true :=
  c1_invalid_query_clamped 1000 oldHickoryDam 0 (Or.inr (by norm_num))

/-- C10: whenever the interpolation branch of
`get_coordinates_from_river_path` produces a point outside the fixed
bounding box [36, 37.5] × [-88.5, -84.5], the interpolated point is
discarded and the coordinates of the dam whose river mile is closest to
the query are returned instead. -/
theorem c10_out_of_box_returns_closest_dam (path : List RiverPoint) (x lat lon : ℚ)
    (p u l : RiverPoint) (ps us ls : List RiverPoint) (d : Dam)
    (hpath : path = p :: ps)
    (h1 : ¬(pyMaxBy (fun q => q.mile) p ps).mile ≤ x)
    (h2 : ¬x ≤ (pyMinBy (fun q => q.mile) p ps).mile)
    (hu : path.filter (fun q => decide (x ≤ q.mile)) = u :: us)
    (hl : path.filter (fun q => decide (q.mile ≤ x)) = l :: ls)
    (hne : ¬(pyMinBy (fun q => q.mile) u us).mile = (pyMaxBy (fun q => q.mile) l ls).mile)
    (hint : interp_between path x (pyMaxBy (fun q => q.mile) l ls)
        (pyMinBy (fun q => q.mile) u us) = some (lat, lon))
    (hout : ¬(36 ≤ lat ∧ lat ≤ 37.5 ∧ -88.5 ≤ lon ∧ lon ≤ -84.5))
    (hd : find_closest_dam_by_mile x = some d) :
    get_coordinates_from_river_path path x = some (d.lat, d.lon) := by
  subst hpath
  simp only [get_coordinates_from_river_path]
  rw [if_neg h1, if_neg h2, hu, hl]
  simp only []
  rw [if_neg hne, hint, Option.some_bind]
  dsimp only
  rw [validate_river_coordinates, if_neg hout, hd]
  rfl

/-- Witness for C10: a two-anchor path whose midpoint interpolates to
latitude 38.5 (outside the box); the geocoder returns Barkley Dam's
coordinates, the dam closest to mile 2. -/
theorem c10_out_of_box_returns_closest_dam_witness :
    get_coordinates_from_river_path
        [(⟨4, 39, -86⟩ : RiverPoint), (⟨0, 38, -86⟩ : RiverPoint)] 2
      = some (37.0208, -88.2228) := by
  have hd : find_closest_dam_by_mile 2 = some barkleyDam := by
    rw [find_closest_dam_by_mile]
    simp only [dams, Option.some.injEq]
    norm_num [pyMinBy, List.foldl, wolfCreekDam, daleHollowDam, centerHillDam,
      oldHickoryDam, percyPriestDam, cheathamDam, barkleyDam, abs_of_nonneg,
      abs_of_nonpos]
  have h := c10_out_of_box_returns_closest_dam
    [(⟨4, 39, -86⟩ : RiverPoint), (⟨0, 38, -86⟩ : RiverPoint)] 2 38.5 (-86)
    ⟨4, 39, -86⟩ ⟨4, 39, -86⟩ ⟨0, 38, -86⟩ [(⟨0, 38, -86⟩ : RiverPoint)] [] []
    barkleyDam rfl
    (by norm_num [pyMaxBy, List.foldl])
    (by norm_num [pyMinBy, List.foldl])
    (by norm_num [List.filter])
    (by norm_num [List.filter])
    (by norm_num [pyMinBy, pyMaxBy, List.foldl])
    (by norm_num [interp_between, pyMinBy, pyMaxBy, List.foldl, qdiv?, lerp2])
    (by norm_num)
    hd
  rw [h]
  norm_num [barkleyDam]

end Cumberland
